import Mathlib

/-!
Verification of the guide layer of `outlines-mlx` (`outlines/fsm/fsm.py`).

The three guide classes (`StopAtTokenFSM`, `RegexFSM`, `CFGFSM`) are embedded
shallowly.  Python dictionaries become association lists, Python lists become
Lean lists, in-place mutation becomes explicit state passing (each method that
mutates `self` returns the updated record), and a raised exception
(`KeyError`, `IndexError`, `AssertionError`, `ValueError`) is modelled by an
`Option`/`Except` failure value.  A Python exception raised part-way through a
method leaves earlier attribute writes in place; the `Option` model collapses
that partial state into `none`, which is adequate for the properties below,
none of which observes the partial state after a raise.

External collaborators that live outside the embedded file are taken as
parameters or are modelled from the specification where the spec is the only
description available (each such definition is marked `Modelled from the
spec:` in its doc comment).
-/

/-- Lookup in an association list, mirroring a Python dict read (`d[k]` /
`d.get(k)`): `none` plays the role of a missing key. -/
def assocLookup {α β : Type} [DecidableEq α] (l : List (α × β)) (k : α) : Option β :=
  (l.find? (fun p => decide (p.1 = k))).map (fun p => p.2)

/-- Deduplication keeping the first occurrence of each element.  Python's
`set` has no specified iteration order; the embedding fixes first-occurrence
order as its determinization (no proved property depends on the order). -/
def dedupF (l : List String) : List String :=
  l.foldl (fun acc x => if x ∈ acc then acc else acc ++ [x]) []

/-- Look up every name of `accepts` in the association list `tr`, failing
(like the Python dict subscript in a set comprehension) if any is absent. -/
def lookupAll (tr : List (String × String)) : List String → Option (List String)
  | [] => some []
  | x :: xs =>
    match assocLookup tr x with
    | none => none
    | some r =>
      match lookupAll tr xs with
      | none => none
      | some rs => some (r :: rs)

/-! ### Automaton and vocabulary indexer (spec-modelled)

`RegexFSM.__init__` calls `make_deterministic_fsm` and
`create_fsm_index_tokenizer` from `outlines.fsm.regex_pure_numpy`, a module of
this repository that is not part of the embedded sources.  The definitions in
this section are modelled from the specification so that concrete `RegexFSM`
instances used below are obtained from an actual automaton and vocabulary
rather than assembled by hand. -/

/-- Modelled from the spec: a deterministic finite automaton as produced by
the (absent) Automaton Compiler — a state set, a partial transition function
(absent entries mean "no edge"), a start state and a set of final states.
The compiler minimizes the automaton, so dead states are already removed. -/
structure Dfa where
  states : List Int
  transitions : List ((Int × Char) × Int)
  start : Int
  finals : List Int

/-- Run the automaton over the characters of one token's text; `none` when
some character has no defined transition. -/
def Dfa.walkToken (d : Dfa) (s : Int) : List Char → Option Int
  | [] => some s
  | c :: cs =>
    match assocLookup d.transitions (s, c) with
    | none => none
    | some s2 => d.walkToken s2 cs

/-- Modelled from the spec: the Vocabulary Indexer
(`create_fsm_index_tokenizer`, absent from the embedded sources).  For every
automaton state and vocabulary token, the token's text is simulated from that
state; fully consumable tokens are recorded with the state they reach, the
rest are absent.  The automaton being minimal, an intermediate state with no
valid continuation does not arise.  States with no admissible token get no
entry at all. -/
def buildIndex (d : Dfa) (vocab : List (Nat × String)) : List (Int × List (Nat × Int)) :=
  d.states.foldr
    (fun s acc =>
      let entry := vocab.filterMap
        (fun p => (d.walkToken s p.2.toList).map (fun s2 => (p.1, s2)))
      if entry.isEmpty then acc else (s, entry) :: acc)
    []

/-! ### RegexFSM (`outlines/fsm/fsm.py`, lines 132-242) -/

/-- The `RegexFSM` object: the vocabulary index `states_to_token_maps`, the
final-state set (automaton finals plus `-1`), the optional token budget, the
lane-0 token counter and the EOS token id.  (`self.empty_token_ids` and
`self.vocabulary` are also stored by `__init__` but are never read by any
method, so they are omitted.)  The budget is an `Int` because `CFGFSM`
constructs child guides with budget `max_tokens - num_tokens_generated`,
which Python does not clamp at zero. -/
structure RegexFSM where
  states_to_token_maps : List (Int × List (Nat × Int))
  final_states : List Int
  max_tokens : Option Int
  num_tokens_generated : Nat
  end_token_id : Nat
  deriving DecidableEq

/-- `RegexFSM.__init__` after the index has been built (lines 151-165): the
feasibility check — at least one `(state, token)` entry of the index must map
into a final automaton state, otherwise a `ValueError` is raised — and the
field initialization, including `final_states = finals | {-1}`. -/
def RegexFSM.init (index : List (Int × List (Nat × Int))) (finals : List Int)
    (max_tokens : Option Int) (end_token_id : Nat) : Except String RegexFSM :=
  if index.any (fun p => p.2.any (fun q => q.2 ∈ finals)) then
    Except.ok
      { states_to_token_maps := index
        final_states := finals ++ [-1]
        max_tokens := max_tokens
        num_tokens_generated := 0
        end_token_id := end_token_id }
  else
    Except.error ("The vocabulary does not allow us to build a sequence that matches the input regex")

/-- `RegexFSM.allowed_token_ids` (lines 167-197): the keys of the index entry
for `state`, or `[end_token_id]` when `state` has no entry. -/
def RegexFSM.allowed_token_ids (m : RegexFSM) (state : Int) : List Nat :=
  match assocLookup m.states_to_token_maps state with
  | none => [m.end_token_id]
  | some tm => tm.map (fun p => p.1)

/-- The budget condition of lines 222-224: a budget is configured and the
counter, as `next_state` sees it after its increment for lane 0, is `==` to
`max_tokens` (an exact comparison, unlike the `>=` of the other guides). -/
def RegexFSM.budgetHitAfter (m : RegexFSM) (idx : Nat) : Bool :=
  match m.max_tokens with
  | some mt =>
    decide (((if idx = 0 then m.num_tokens_generated + 1 else m.num_tokens_generated : Nat) : Int) = mt)
  | none => false

/-- `RegexFSM.next_state` (lines 199-234).  The counter is incremented for
lane 0; the budget check compares the counter to `max_tokens` with `==`; the
EOS token moves to `-1`; otherwise `self.states_to_token_maps[state]` is a
raising dict subscript (`none` models the `KeyError` when `state` has no
entry) and the inner `.get(token_id)` defaults to `-1`. -/
def RegexFSM.next_state (m : RegexFSM) (state : Int) (token_id : Nat) (idx : Nat) :
    RegexFSM × Option Int :=
  let m1 := if idx = 0 then { m with num_tokens_generated := m.num_tokens_generated + 1 } else m
  if m.budgetHitAfter idx then (m1, some (-1))
  else if token_id = m.end_token_id then (m1, some (-1))
  else
    match assocLookup m.states_to_token_maps state with
    | none => (m1, none)
    | some tm => (m1, some ((assocLookup tm token_id).getD (-1)))

/-- `RegexFSM.is_final_state` (lines 236-238): membership in `final_states`. -/
def RegexFSM.is_final_state (m : RegexFSM) (state : Int) : Bool :=
  state ∈ m.final_states

/-- `RegexFSM.reset` (lines 240-242): only the token counter is cleared. -/
def RegexFSM.reset (m : RegexFSM) : RegexFSM :=
  { m with num_tokens_generated := 0 }

/-! ### A concrete RegexFSM: pattern `a+` over the vocabulary `{0: "a", 1: "<eos>"}` -/

/-- The minimal Dfa of the pattern `a+`: state 1 is final and loops on `a`. -/
def dfaAplus : Dfa :=
  { states := [0, 1]
    transitions := [((0, 'a'), 1), ((1, 'a'), 1)]
    start := 0
    finals := [1] }

/-- A two-token vocabulary: token 0 is `"a"`, token 1 is the EOS token. -/
def vocabAplus : List (Nat × String) := [(0, "a"), (1, "<eos>")]

/-- The `RegexFSM` built over `dfaAplus` and `vocabAplus` with no token
budget and EOS id 1; `regexAplus_mk_ok` below checks it is exactly what
`RegexFSM.init` returns on the built index. -/
def regexAplusFSM : RegexFSM :=
  { states_to_token_maps := [(0, [(0, 1)]), (1, [(0, 1)])]
    final_states := [1, -1]
    max_tokens := none
    num_tokens_generated := 0
    end_token_id := 1 }

/-- `regexAplusFSM` with a budget of 1 token which the counter has already
reached — the situation after one call to `next_state` on lane 0. -/
def regexBudgetFSM : RegexFSM :=
  { regexAplusFSM with max_tokens := some 1, num_tokens_generated := 1 }

/-! ### StopAtTokenFSM (`outlines/fsm/fsm.py`, lines 46-129) -/

/-- The `StopAtTokenFSM` object.  `vocabulary` holds
`tokenizer.vocabulary.values()`.  Modelled from the spec: the Tokenizer is an
external capability (`outlines.models.tokenizer` is not among the embedded
sources); its vocabulary is an ordered, id-unique association of token ids
with token texts, and the guide contract returns token ids
(`allowed_token_ids(state, lane) -> set<TokenId>`), so the stored view is the
list of token ids, one per vocabulary entry. -/
structure StopAtTokenFSM where
  stop_token_id : Nat
  max_tokens : Option Nat
  num_tokens_generated : Nat
  vocabulary : List Nat
  final_states : List Int
  deriving DecidableEq

/-- `StopAtTokenFSM.__init__` (lines 55-65). -/
def StopAtTokenFSM.init (vocabulary : List Nat) (stop_token_id : Nat)
    (max_tokens : Option Nat) : StopAtTokenFSM :=
  { stop_token_id := stop_token_id
    max_tokens := max_tokens
    num_tokens_generated := 0
    vocabulary := vocabulary
    final_states := [1] }

/-- `StopAtTokenFSM.allowed_token_ids` (lines 67-88): the whole vocabulary in
state 0, `[stop_token_id]` in every other state. -/
def StopAtTokenFSM.allowed_token_ids (m : StopAtTokenFSM) (state : Int) : List Nat :=
  if state = 0 then m.vocabulary else [m.stop_token_id]

/-- The condition under which `StopAtTokenFSM.next_state` takes its budget
branch: a budget is configured and the counter, after its increment for lane
0, has reached it. -/
def StopAtTokenFSM.budgetReachedAfter (m : StopAtTokenFSM) (idx : Nat) : Bool :=
  let n := if idx = 0 then m.num_tokens_generated + 1 else m.num_tokens_generated
  match m.max_tokens with
  | some mt => decide (mt ≤ n)
  | none => false

/-- `StopAtTokenFSM.next_state` (lines 90-121): increment the counter for
lane 0; state 1 once the budget is reached (`>=`) or the stop token was
emitted, state 0 otherwise.  The `state` argument is never read. -/
def StopAtTokenFSM.next_state (m : StopAtTokenFSM) (state : Int) (token_id : Nat)
    (idx : Nat) : StopAtTokenFSM × Int :=
  let m1 := if idx = 0 then { m with num_tokens_generated := m.num_tokens_generated + 1 } else m
  if m.budgetReachedAfter idx then (m1, 1)
  else if token_id = m.stop_token_id then (m1, 1)
  else (m1, 0)

/-- `StopAtTokenFSM.is_final_state` (lines 123-125). -/
def StopAtTokenFSM.is_final_state (m : StopAtTokenFSM) (state : Int) : Bool :=
  state ∈ m.final_states

/-- `StopAtTokenFSM.reset` (lines 127-129). -/
def StopAtTokenFSM.reset (m : StopAtTokenFSM) : StopAtTokenFSM :=
  { m with num_tokens_generated := 0 }

/-- Feed a list of tokens through `next_state` on lane 0, each call passing
the state returned by the previous one; the pair is the guide after the run
and the state returned by the last call (`st` for an empty run). -/
def runStop (m : StopAtTokenFSM) (toks : List Nat) (st : Int) : StopAtTokenFSM × Int :=
  toks.foldl (fun p t => p.1.next_state p.2 t 0) (m, st)

/-! ### CFGFSM (`outlines/fsm/fsm.py`, lines 245-418)

The grammar guide depends on two collaborators that are not among the
embedded sources: the Lark incremental parser (third-party) and the
`RegexFSM` construction pipeline (which needs the absent indexer).  Both are
taken as parameters of the methods that use them: the parser is an oracle
supplying, per call, the frontier `accepts` for the lane's accumulated text,
and `mkR pattern budget` stands for `RegexFSM(pattern, tokenizer, budget)`
assumed to succeed. -/

/-- The `CFGFSM` object: the terminal-name-to-regexp table, the tokenizer
capability it keeps (EOS id and a decode function — modelled from the spec:
`decode(token_ids) -> sequence<string>`, used as
`self.tokenizer.decode([token_id])[0]`), the shared lane-0 token counter,
and the per-lane containers `generations`, `regex_fsms`, `reset_state`,
`allow_eos` and `done`. -/
structure CFGFSM where
  terminal_regexps : List (String × String)
  eos_token_id : Nat
  decode : Nat → String
  max_tokens : Option Nat
  num_tokens_generated : Nat
  generations : List String
  regex_fsms : List RegexFSM
  reset_state : List Bool
  allow_eos : List Bool
  done : List Bool

/-- `CFGFSM.__init__` (lines 248-276): the terminal table is built from the
parser's terminals with the reserved `$END` entry mapped to the tokenizer's
EOS text, and every per-lane container starts empty. -/
def CFGFSM.init (terminals : List (String × String)) (eos_token : String)
    (eos_token_id : Nat) (decode : Nat → String) (max_tokens : Option Nat) : CFGFSM :=
  { terminal_regexps := terminals ++ [("$END", eos_token)]
    eos_token_id := eos_token_id
    decode := decode
    max_tokens := max_tokens
    num_tokens_generated := 0
    generations := []
    regex_fsms := []
    reset_state := []
    allow_eos := []
    done := [] }

/-- The union pattern of line 301:
`"(" + "|".join(["(" + x + ")" for x in options]) + ")"`. -/
def unionPattern (options : List String) : String :=
  "(" ++ String.intercalate ("|") (options.map (fun x => "(" ++ x ++ ")")) ++ ")"

/-- The child budget of lines 302-306:
`self.max_tokens - self.num_tokens_generated if self.max_tokens else None`.
Python truthiness makes a configured budget of `0` behave like `None`, and
the subtraction is not clamped at zero, hence the `Int`. -/
def CFGFSM.childBudget (m : CFGFSM) : Option Int :=
  match m.max_tokens with
  | some mt => if mt ≠ 0 then some ((mt : Int) - (m.num_tokens_generated : Nat)) else none
  | none => none

/-- Lines 307-311 of `_set_next_regex_fsm`: store the freshly built child
guide (appending when the container is short, replacing otherwise) and mark
the lane's pending-reset flag; the flag write `self.reset_state[idx] = True`
raises `IndexError` when the lane has no entry. -/
def CFGFSM.installRegex (m : CFGFSM) (options : List String)
    (mkR : String → Option Int → RegexFSM) (idx : Nat) : Option CFGFSM :=
  if idx < m.reset_state.length then
    if m.regex_fsms.length ≤ idx then
      some { m with
             regex_fsms := m.regex_fsms ++ [mkR (unionPattern options) m.childBudget]
             reset_state := m.reset_state.set idx true }
    else
      some { m with
             regex_fsms := m.regex_fsms.set idx (mkR (unionPattern options) m.childBudget)
             reset_state := m.reset_state.set idx true }
  else none

/-- Line 298: `options.add("")` — the empty-string alternative joins the
option set unless already present. -/
def withEmptyAlt (rest : List String) : List String :=
  if ("" ∈ rest) then rest else rest ++ [""]

/-- `CFGFSM._set_next_regex_fsm` (lines 278-311).  `accepts` is the parser
frontier for `generations[idx]`.  The options set is the set of regexps of
the accepted terminals; if the `$END` regexp is among them it is removed —
lane marked done when nothing remains, otherwise the EOS-allowed flag is set
and an empty-string alternative added, with `assert len(options) > 1` — and
the remaining union is compiled into the lane's next child guide. -/
def CFGFSM.setNextRegexFSM (m : CFGFSM) (accepts : List String)
    (mkR : String → Option Int → RegexFSM) (idx : Nat) : Option CFGFSM :=
  match lookupAll m.terminal_regexps accepts with
  | none => none
  | some pats =>
    match assocLookup m.terminal_regexps ("$END") with
    | none => none
    | some eosRe =>
      if eosRe ∈ dedupF pats then
        if ((dedupF pats).filter (fun x => x ≠ eosRe)).isEmpty then
          if idx < m.done.length then some { m with done := m.done.set idx true } else none
        else
          if idx < m.allow_eos.length then
            if 1 < (withEmptyAlt ((dedupF pats).filter (fun x => x ≠ eosRe))).length then
              CFGFSM.installRegex { m with allow_eos := m.allow_eos.set idx true }
                (withEmptyAlt ((dedupF pats).filter (fun x => x ≠ eosRe))) mkR idx
            else none
          else none
      else CFGFSM.installRegex m (dedupF pats) mkR idx

/-- Lines 340-344 of `allowed_token_ids`: the lazy creation of a lane's
bookkeeping — when `len(self.generations) <= idx`, one entry is appended to
each of the four per-lane containers (`regex_fsms` excepted). -/
def CFGFSM.ensureLane (m : CFGFSM) (idx : Nat) : CFGFSM :=
  if m.generations.length ≤ idx then
    { m with
      generations := m.generations ++ [""]
      reset_state := m.reset_state ++ [false]
      allow_eos := m.allow_eos ++ [false]
      done := m.done ++ [false] }
  else m

/-- `CFGFSM.allowed_token_ids` (lines 313-369).  After the lazy lane
creation, the lane's child guide answers as long as its proposal has no EOS
in it (the probabilistic-switch branch of lines 350-353 is dead code); in
every other case a new slice is selected, a done lane offers only EOS, a
pending reset redirects the lookup to state 0, and EOS is stripped from the
proposal unless the EOS-allowed flag was set, which is consumed; the final
`assert len(proposal) > 0` is a failure. -/
def CFGFSM.allowed_token_ids (m : CFGFSM) (accepts : List String)
    (mkR : String → Option Int → RegexFSM) (state : Int) (idx : Nat) :
    Option (CFGFSM × List Nat) :=
  let m := m.ensureLane idx
  let delegated : Option (List Nat) :=
    match m.regex_fsms.get? idx with
    | some rf =>
      let proposal := rf.allowed_token_ids state
      if m.eos_token_id ∈ proposal then none else some proposal
    | none => none
  match delegated with
  | some proposal => some (m, proposal)
  | none =>
    match m.setNextRegexFSM accepts mkR idx with
    | none => none
    | some m1 =>
      match m1.done.get? idx with
      | none => none
      | some d =>
        if d then some (m1, [m1.eos_token_id])
        else
          match m1.reset_state.get? idx with
          | none => none
          | some rs =>
            let state1 : Int := if rs then 0 else state
            match m1.regex_fsms.get? idx with
            | none => none
            | some rf =>
              let proposal := rf.allowed_token_ids state1
              match m1.allow_eos.get? idx with
              | none => none
              | some ae =>
                if ae then
                  some ({ m1 with allow_eos := m1.allow_eos.set idx false }, proposal)
                else
                  let proposal := proposal.filter (fun t => t ≠ m1.eos_token_id)
                  if 0 < proposal.length then some (m1, proposal) else none

/-- `CFGFSM.next_state` (lines 371-406): bump the shared counter on lane 0;
budget reached (`>=`) or EOS emitted marks the lane done and returns `-1`
(the flag write raises `IndexError` for an unknown lane); a pending reset is
consumed and redirects to state 0; the decoded token text is appended to the
lane's accumulated generation; the transition is forwarded to the lane's
child guide.  Every read or write of a per-lane container at a missing index
is an `IndexError`, hence `none`. -/
def CFGFSM.next_state (m : CFGFSM) (state : Int) (token_id : Nat) (idx : Nat) :
    Option (CFGFSM × Int) :=
  let m1 := if idx = 0 then { m with num_tokens_generated := m.num_tokens_generated + 1 } else m
  let budget :=
    match m1.max_tokens with
    | some mt => decide (mt ≤ m1.num_tokens_generated)
    | none => false
  if budget then
    if idx < m1.done.length then some ({ m1 with done := m1.done.set idx true }, -1) else none
  else if token_id = m1.eos_token_id then
    if idx < m1.done.length then some ({ m1 with done := m1.done.set idx true }, -1) else none
  else
    match m1.reset_state.get? idx with
    | none => none
    | some rs =>
      let m2 := if rs then { m1 with reset_state := m1.reset_state.set idx false } else m1
      let state2 : Int := if rs then 0 else state
      match m2.generations.get? idx with
      | none => none
      | some g =>
        let m3 := { m2 with generations := m2.generations.set idx (g ++ m2.decode token_id) }
        match m3.regex_fsms.get? idx with
        | none => none
        | some rf =>
          match rf.next_state state2 token_id idx with
          | (rf1, some s2) => some ({ m3 with regex_fsms := m3.regex_fsms.set idx rf1 }, s2)
          | (_, none) => none

/-- `CFGFSM.is_final_state` (lines 408-410): `self.done[idx]`, an
`IndexError` for an unknown lane. -/
def CFGFSM.is_final_state (m : CFGFSM) (state : Int) (idx : Nat) : Option Bool :=
  m.done.get? idx

/-- `CFGFSM.reset` (lines 412-418): the counter and four of the five per-lane
containers are cleared; `self.allow_eos` is not among them. -/
def CFGFSM.reset (m : CFGFSM) : CFGFSM :=
  { m with
    num_tokens_generated := 0
    generations := []
    regex_fsms := []
    reset_state := []
    done := [] }

/-! ### Concrete grammar-guide instances -/

/-- A stand-in for a successful child-guide construction, used only to
evaluate the grammar guide on concrete inputs; none of the proved
grammar-guide properties inspects the child's internals. -/
def mkRdummy (_pattern : String) (budget : Option Int) : RegexFSM :=
  { states_to_token_maps := []
    final_states := [-1]
    max_tokens := budget
    num_tokens_generated := 0
    end_token_id := 9 }

/-- A freshly constructed grammar guide over two terminals `A: "a"` and
`B: "b"`, EOS text `"</s>"`, EOS id 9, no budget. -/
def cfgFresh : CFGFSM :=
  CFGFSM.init [("A", "a"), ("B", "b")] ("</s>") 9 (fun _ => "a") none

/-- `cfgFresh` after lane 0 has been addressed and the guide has advanced:
some text accumulated, a child guide active, and the lane's
EOS-currently-allowed flag set. -/
def cfgDirty : CFGFSM :=
  { cfgFresh with
    num_tokens_generated := 3
    generations := ["aa"]
    regex_fsms := [mkRdummy ("(a)") none]
    reset_state := [false]
    allow_eos := [true]
    done := [false] }

/-- `cfgFresh` with lane 0 created (the state right after the first
`allowed_token_ids(0, 0)` creates the lane's bookkeeping). -/
def cfgLane0 : CFGFSM :=
  { cfgFresh with
    generations := [""]
    reset_state := [false]
    allow_eos := [false]
    done := [false] }

/-- A grammar guide whose grammar has a terminal `T` whose pattern is the
EOS text itself, so that the regexp of `T` collides with the regexp of the
reserved end-of-input terminal. -/
def cfgCollide : CFGFSM :=
  { cfgLane0 with terminal_regexps := [("T", "</s>"), ("$END", "</s>")] }

/-- A grammar guide whose grammar has a terminal `E` with an empty pattern. -/
def cfgEmptyPat : CFGFSM :=
  { cfgLane0 with terminal_regexps := [("E", ""), ("$END", "</s>")] }

/-! ## Theorems -/

/-! ### Stop guide -/

/-- One step of `runStop` peeled off the front. -/
theorem runStop_cons (m : StopAtTokenFSM) (t : Nat) (ts : List Nat) (st : Int) :
    runStop m (t :: ts) st = runStop (m.next_state st t 0).1 ts (m.next_state st t 0).2 := rfl

/-- On lane 0 `StopAtTokenFSM.next_state` always returns the guide with the
counter bumped by one, whatever branch produced the result. -/
theorem StopAtTokenFSM.next_state_fst (m : StopAtTokenFSM) (st : Int) (t : Nat) :
    (m.next_state st t 0).1 = { m with num_tokens_generated := m.num_tokens_generated + 1 } := by
  simp only [StopAtTokenFSM.next_state, reduceIte]
  split
  · rfl
  · split <;> rfl

/-- Once a budget `mt` is configured and a non-empty run of lane-0 calls is
long enough for the counter to reach it, the last call returns state 1, and
`final_states` survives the run. -/
theorem runStop_budget (toks : List Nat) : ∀ (m : StopAtTokenFSM) (st : Int) (mt : Nat),
    toks ≠ [] → m.max_tokens = some mt → mt ≤ m.num_tokens_generated + toks.length →
    (runStop m toks st).2 = 1 ∧ (runStop m toks st).1.final_states = m.final_states := by
  induction toks with
  | nil => intro _ _ _ h _ _; exact absurd rfl h
  | cons t ts ih =>
    intro m st mt _ hmax hle
    rw [runStop_cons, StopAtTokenFSM.next_state_fst]
    cases ts with
    | nil =>
      have hhit : mt ≤ m.num_tokens_generated + 1 := by
        simpa using hle
      have hb : m.budgetReachedAfter 0 = true := by
        unfold StopAtTokenFSM.budgetReachedAfter
        simp [hmax, hhit]
      have hres : (m.next_state st t 0).2 = 1 := by
        simp [StopAtTokenFSM.next_state, hb]
      exact ⟨hres, rfl⟩
    | cons u us =>
      have hle2 : mt ≤ m.num_tokens_generated + 1 + (u :: us).length := by
        simp only [List.length_cons] at hle ⊢
        omega
      have h := ih { m with num_tokens_generated := m.num_tokens_generated + 1 }
        (m.next_state st t 0).2 mt (by simp) hmax hle2
      exact ⟨h.1, h.2⟩

/-- C8: a Stop guide built with `max_tokens = N` (`N ≥ 1`) is in a final
state after the `N`-th `next_state` call on lane 0, whatever the `N` fed
tokens are, none of them the stop token. -/
theorem stop_budget_boundary (vocab : List Nat) (stop : Nat) (N : Nat) (toks : List Nat)
    (hN : 1 ≤ N) (hlen : toks.length = N) (hstop : ∀ t ∈ toks, t ≠ stop) :
    (runStop (StopAtTokenFSM.init vocab stop (some N)) toks 0).1.is_final_state
      (runStop (StopAtTokenFSM.init vocab stop (some N)) toks 0).2 = true := by
  have hne : toks ≠ [] := by
    intro h; rw [h] at hlen; simp at hlen; omega
  obtain ⟨h1, h2⟩ := runStop_budget toks (StopAtTokenFSM.init vocab stop (some N)) 0 N hne rfl
    (by simp [StopAtTokenFSM.init, hlen])
  rw [h1]
  unfold StopAtTokenFSM.is_final_state
  rw [h2]
  simp [StopAtTokenFSM.init]

/-- Witness for `stop_budget_boundary`: stop token 7, budget 2, feeding the
two non-stop tokens 0 and 1 ends in a final state. -/
theorem stop_budget_boundary_witness :
    (runStop (StopAtTokenFSM.init [0, 1] 7 (some 2)) [0, 1] 0).1.is_final_state
      (runStop (StopAtTokenFSM.init [0, 1] 7 (some 2)) [0, 1] 0).2 = true :=
  stop_budget_boundary [0, 1] 7 2 [0, 1] (by decide) (by decide) (by decide)

/-- C7: a freshly built Stop guide allows the whole vocabulary (the token-id
view of the tokenizer's id-unique mapping) in state 0, and exactly the stop
token in every other state. -/
theorem stop_allowed_full_vocab (vocab : List Nat) (stop : Nat) (mt : Option Nat) (s : Int) :
    (StopAtTokenFSM.init vocab stop mt).allowed_token_ids 0 = vocab ∧
    (s ≠ 0 → (StopAtTokenFSM.init vocab stop mt).allowed_token_ids s = [stop]) := by
  refine ⟨rfl, fun h => ?_⟩
  simp [StopAtTokenFSM.allowed_token_ids, StopAtTokenFSM.init, h]

/-- Witness for `stop_allowed_full_vocab` at state 1. -/
theorem stop_allowed_full_vocab_witness :
    (StopAtTokenFSM.init [3, 4, 5] 5 none).allowed_token_ids 0 = [3, 4, 5] ∧
    (StopAtTokenFSM.init [3, 4, 5] 5 none).allowed_token_ids 1 = [5] :=
  ⟨(stop_allowed_full_vocab [3, 4, 5] 5 none 1).1,
   (stop_allowed_full_vocab [3, 4, 5] 5 none 1).2 (by decide)⟩

/-- C9: `StopAtTokenFSM.next_state` never reads its `state` argument — two
calls differing only in the state agree exactly — and in particular state 1
is not absorbing: from state 1 a non-stop token with the budget unreached
yields state 0. -/
theorem stop_next_state_ignores_state (m : StopAtTokenFSM) (s1 s2 : Int) (t : Nat) (idx : Nat) :
    m.next_state s1 t idx = m.next_state s2 t idx ∧
    (t ≠ m.stop_token_id → m.budgetReachedAfter idx = false →
      (m.next_state 1 t idx).2 = 0) := by
  constructor
  · rfl
  · intro ht hb
    simp [StopAtTokenFSM.next_state, hb, ht]

/-- Witness for `stop_next_state_ignores_state`: states 2 and 7 transition
identically, and state 1 goes back to 0 on a non-stop token under budget. -/
theorem stop_next_state_ignores_state_witness :
    (StopAtTokenFSM.init [0] 5 (some 3)).next_state 2 1 0 =
      (StopAtTokenFSM.init [0] 5 (some 3)).next_state 7 1 0 ∧
    ((StopAtTokenFSM.init [0] 5 (some 3)).next_state 1 1 0).2 = 0 :=
  ⟨(stop_next_state_ignores_state (StopAtTokenFSM.init [0] 5 (some 3)) 2 7 1 0).1,
   (stop_next_state_ignores_state (StopAtTokenFSM.init [0] 5 (some 3)) 2 7 1 0).2
     (by decide) (by decide)⟩

/-! ### Regex guide -/

/-- The concrete instance `regexAplusFSM` is exactly what the constructor
produces from the `a+` automaton and the two-token vocabulary. -/
theorem regexAplus_init_ok :
    RegexFSM.init (buildIndex dfaAplus vocabAplus) dfaAplus.finals none 1 =
      Except.ok regexAplusFSM := by rfl

/-- C1 counterexample: in the guide for `a+`, automaton state 1 is a final
state (`is_final_state` holds) yet `allowed_token_ids` there is `[0]` — the
token `"a"` that continues the match — and the EOS token id 1 is not in it,
so the allowed set at a final state neither contains EOS nor has it as sole
element. -/
theorem regex_final_state_offers_non_eos :
    regexAplusFSM.is_final_state 1 = true ∧
    regexAplusFSM.allowed_token_ids 1 = [0] ∧
    regexAplusFSM.end_token_id ∉ regexAplusFSM.allowed_token_ids 1 := by decide

/-- C1 amended: for a final state that has no entry in the index — the
absorbing state `-1` in particular — `allowed_token_ids` is exactly the
one-element list holding the EOS token id. -/
theorem regex_final_no_entry_only_eos (m : RegexFSM) (s : Int)
    (hfin : m.is_final_state s = true)
    (hnone : assocLookup m.states_to_token_maps s = none) :
    m.allowed_token_ids s = [m.end_token_id] := by
  unfold RegexFSM.allowed_token_ids
  rw [hnone]

/-- Witness for `regex_final_no_entry_only_eos` at the absorbing state `-1`
of the `a+` guide. -/
theorem regex_final_no_entry_only_eos_witness :
    regexAplusFSM.allowed_token_ids (-1) = [1] :=
  regex_final_no_entry_only_eos regexAplusFSM (-1) (by decide) (by decide)

/-- C2 counterexample: in the guide for `a+` (no budget), at the absorbing
state `-1` — which has no entry in the index — a non-EOS token does not
produce `-1`: the lookup `self.states_to_token_maps[state]` raises
`KeyError` (modelled as `none`). -/
theorem regex_next_state_keyerror :
    (regexAplusFSM.next_state (-1) 0 1).2 = none ∧
    (0 : Nat) ≠ regexAplusFSM.end_token_id ∧
    regexAplusFSM.max_tokens = none := by decide

/-- C2 amended: with a non-EOS token and the budget branch not taken,
`next_state` is the double lookup — `index[state][token_id]` when the token
has an entry, `-1` when the token is absent from `index[state]` — provided
`state` itself has an entry; when `state` has no entry the call fails
(`KeyError`) instead of returning `-1`. -/
theorem regex_next_state_lookup (m : RegexFSM) (s : Int) (t : Nat) (idx : Nat)
    (ht : t ≠ m.end_token_id) (hb : m.budgetHitAfter idx = false) :
    (m.next_state s t idx).2 =
      (assocLookup m.states_to_token_maps s).map (fun tm => (assocLookup tm t).getD (-1)) := by
  unfold RegexFSM.next_state
  rw [hb]
  simp only [Bool.false_eq_true, if_false, if_neg ht]
  cases assocLookup m.states_to_token_maps s <;> rfl

/-- Witness for `regex_next_state_lookup`: from state 0 of the `a+` guide,
token 0 moves to state 1 (lane 1, so the counter is untouched). -/
theorem regex_next_state_lookup_witness :
    (regexAplusFSM.next_state 0 0 1).2 = some 1 :=
  (regex_next_state_lookup regexAplusFSM 0 0 1 (by decide) (by decide)).trans (by decide)

/-- C3 counterexample: in the `a+` guide with `max_tokens = 1` whose counter
already stands at 1 (one lane-0 call has happened), a further lane-0 call
brings the counter to 2, which is `≥ 1` — yet the equality test `== 1`
fails and the call returns the normal transition `some 1` instead of `-1`. -/
theorem regex_budget_overshoot :
    (regexBudgetFSM.next_state 0 0 0).2 = some 1 ∧
    regexBudgetFSM.max_tokens = some 1 ∧
    (1 : Int) ≤ ((regexBudgetFSM.num_tokens_generated + 1 : Nat) : Int) := by decide

/-- C3 amended: the budget branch of `RegexFSM.next_state` fires exactly
when the counter, after its lane-0 increment, equals the configured
`max_tokens`; then `-1` is returned for every state and token. -/
theorem regex_budget_exact_hit (m : RegexFSM) (s : Int) (t : Nat) (idx : Nat) (mt : Int)
    (hmt : m.max_tokens = some mt)
    (hc : ((if idx = 0 then m.num_tokens_generated + 1 else m.num_tokens_generated : Nat) : Int) = mt) :
    (m.next_state s t idx).2 = some (-1) := by
  have hb : m.budgetHitAfter idx = true := by
    unfold RegexFSM.budgetHitAfter
    rw [hmt]
    simp [hc]
  unfold RegexFSM.next_state
  rw [hb]
  rfl

/-- Witness for `regex_budget_exact_hit`: budget 2 with one token already
counted; the next lane-0 call returns `-1` even though state 0 and token 0
have a normal transition. -/
theorem regex_budget_exact_hit_witness :
    (({ regexAplusFSM with max_tokens := some 2, num_tokens_generated := 1 } : RegexFSM).next_state
      0 0 0).2 = some (-1) :=
  regex_budget_exact_hit
    { regexAplusFSM with max_tokens := some 2, num_tokens_generated := 1 } 0 0 0 2
    (by decide) (by decide)

/-- C4: construction fails (with the vocabulary-infeasibility `ValueError`)
exactly when no `(state, token)` entry of the index maps into a final
automaton state; the per-step methods contain no such check, so the error
can only arise at construction. -/
theorem regex_init_infeasible_iff (index : List (Int × List (Nat × Int))) (finals : List Int)
    (mt : Option Int) (eos : Nat) :
    (∃ e, RegexFSM.init index finals mt eos = Except.error e) ↔
      ∀ p ∈ index, ∀ q ∈ p.2, q.2 ∉ finals := by
  unfold RegexFSM.init
  rcases h : index.any (fun p => p.2.any (fun q => q.2 ∈ finals)) with _ | _
  · simp only [h, Bool.false_eq_true, if_false]
    constructor
    · intro _ p hp q hq
      have h1 : ¬ ((p.2.any fun r => decide (r.2 ∈ finals)) = true) :=
        List.any_eq_false.mp h p hp
      have h2 : ¬ (decide (q.2 ∈ finals) = true) :=
        List.any_eq_false.mp (Bool.eq_false_iff.mpr h1) q hq
      simpa using h2
    · intro _
      exact ⟨_, rfl⟩
  · simp only [h, if_true]
    constructor
    · rintro ⟨e, he⟩
      exact absurd he (by simp)
    · intro hall
      obtain ⟨p, hp, hpany⟩ := List.any_eq_true.mp h
      obtain ⟨q, hq, hqdec⟩ := List.any_eq_true.mp hpany
      exact absurd (of_decide_eq_true hqdec) (hall p hp q hq)

/-- Witness for `regex_init_infeasible_iff`: an index whose only entry maps
back to the non-final state 0 makes construction fail, and the feasible
`a+` index does not. -/
theorem regex_init_infeasible_iff_witness :
    (∃ e, RegexFSM.init [(0, [(0, 0)])] [1] none 9 = Except.error e) ∧
    ¬ (∃ e, RegexFSM.init (buildIndex dfaAplus vocabAplus) dfaAplus.finals none 1 =
        Except.error e) :=
  ⟨(regex_init_infeasible_iff [(0, [(0, 0)])] [1] none 9).mpr (by decide),
   fun h => by
    have := (regex_init_infeasible_iff (buildIndex dfaAplus vocabAplus) dfaAplus.finals
      none 1).mp h
    exact absurd this (by decide)⟩

/-! ### Grammar guide -/

/-- C5 (code bug): `CFGFSM.reset` clears the counter, the accumulated text,
the child guides, the pending-reset flags and the done flags, but leaves
`allow_eos` untouched, so a guide that had a lane's EOS-allowed flag set is
not restored to its freshly-constructed state; when the lane is later
re-created, the stale flag (and not the appended `false`) is the one read at
index 0. -/
theorem cfg_reset_keeps_allow_eos :
    cfgDirty.reset.allow_eos = [true] ∧
    cfgFresh.allow_eos = [] ∧
    cfgDirty.reset.generations = [] ∧
    cfgDirty.reset.num_tokens_generated = 0 ∧
    (cfgDirty.reset.ensureLane 0).allow_eos = [true, false] :=
  ⟨rfl, rfl, rfl, rfl, rfl⟩

/-- C10: for a lane index whose bookkeeping was never created (the per-lane
containers are too short), `is_final_state` and `next_state` fail with an
out-of-range error (`none`) on every path instead of creating the entry,
while the lazy creation step of `allowed_token_ids` extends the containers
by exactly one entry. -/
theorem cfg_unknown_lane_errors (m : CFGFSM) (state : Int) (token : Nat) (idx : Nat)
    (h1 : m.done.length ≤ idx) (h2 : m.reset_state.length ≤ idx)
    (h3 : m.generations.length ≤ idx) :
    m.is_final_state state idx = none ∧
    m.next_state state token idx = none ∧
    (m.ensureLane idx).generations.length = m.generations.length + 1 ∧
    (m.ensureLane idx).done.length = m.done.length + 1 := by
  refine ⟨?_, ?_, ?_, ?_⟩
  · unfold CFGFSM.is_final_state
    exact List.get?_eq_none.mpr h1
  · by_cases hidx : idx = 0
    · subst hidx
      have hd : m.done = [] := List.eq_nil_of_length_eq_zero (Nat.le_zero.mp h1)
      have hr : m.reset_state = [] := List.eq_nil_of_length_eq_zero (Nat.le_zero.mp h2)
      simp [CFGFSM.next_state, hd, hr]
    · simp [CFGFSM.next_state, hidx, Nat.not_lt.mpr h1, List.getElem?_eq_none h2]
  · simp [CFGFSM.ensureLane, h3]
  · simp [CFGFSM.ensureLane, h3]

/-- Witness for `cfg_unknown_lane_errors`: a freshly constructed grammar
guide has no lane bookkeeping at all, so lane 0 itself is unknown to
`is_final_state` and `next_state`. -/
theorem cfg_unknown_lane_errors_witness :
    cfgFresh.is_final_state 0 0 = none ∧
    cfgFresh.next_state 0 3 0 = none ∧
    (cfgFresh.ensureLane 0).generations.length = cfgFresh.generations.length + 1 ∧
    (cfgFresh.ensureLane 0).done.length = cfgFresh.done.length + 1 :=
  cfg_unknown_lane_errors cfgFresh 0 3 0 (by decide) (by decide) (by decide)

/-- C6 counterexample, two concrete slice selections on lane 0.  First, in
`cfgCollide` the grammar terminal `T` has the EOS text `"</s>"` as its
pattern, and the frontier is `{T, $END}`: end-of-input occurs among other
terminals, yet the code marks the lane done and builds no guide (the branch
is decided by the regexp strings, which collide), rather than set the
EOS-allowed flag.  Second, in `cfgEmptyPat` the other frontier terminal `E`
has the empty pattern: after removing the EOS regexp the only option is
`""`, adding the empty alternative changes nothing, and the
`assert len(options) > 1` fails — the selection raises instead of producing
an option set with more than one element. -/
theorem cfg_set_next_collision :
    (cfgCollide.setNextRegexFSM ["T", "$END"] mkRdummy 0).map (fun m => m.done) = some [true] ∧
    (cfgCollide.setNextRegexFSM ["T", "$END"] mkRdummy 0).map (fun m => m.allow_eos) =
      some [false] ∧
    (cfgCollide.setNextRegexFSM ["T", "$END"] mkRdummy 0).map (fun m => m.regex_fsms.length) =
      some 0 ∧
    cfgEmptyPat.setNextRegexFSM ["E", "$END"] mkRdummy 0 = none :=
  ⟨rfl, rfl, rfl, rfl⟩

/-- C6 amended: slice selection by cases on the regexp set of the frontier
(`pats` are the regexps of the accepted terminals, `eosRe` the regexp of the
reserved end-of-input terminal).  If every frontier regexp equals `eosRe`,
the lane is marked done and nothing else changes.  If `eosRe` is among the
options along with others and the others are not exactly the empty string,
the EOS-allowed and pending-reset flags are set, the empty-string
alternative joins the options, the resulting option set has more than one
element, and a child guide over their union is installed.  If `eosRe` is not
among the options, a child guide over the union of the options is installed
and the pending-reset flag is set. -/
theorem cfg_set_next_cases (m : CFGFSM) (accepts : List String)
    (mkR : String → Option Int → RegexFSM) (idx : Nat) (eosRe : String) (pats : List String)
    (hEnd : assocLookup m.terminal_regexps ("$END") = some eosRe)
    (hPats : lookupAll m.terminal_regexps accepts = some pats)
    (hDone : idx < m.done.length) (hAE : idx < m.allow_eos.length)
    (hRS : idx < m.reset_state.length) :
    (eosRe ∈ dedupF pats → (dedupF pats).filter (fun x => x ≠ eosRe) = [] →
      m.setNextRegexFSM accepts mkR idx = some { m with done := m.done.set idx true }) ∧
    (∀ rest, rest = (dedupF pats).filter (fun x => x ≠ eosRe) → eosRe ∈ dedupF pats →
      rest ≠ [] → rest ≠ [""] →
      m.setNextRegexFSM accepts mkR idx =
        some { m with
               allow_eos := m.allow_eos.set idx true
               regex_fsms :=
                 if m.regex_fsms.length ≤ idx then
                   m.regex_fsms ++ [mkR (unionPattern (withEmptyAlt rest)) m.childBudget]
                 else m.regex_fsms.set idx (mkR (unionPattern (withEmptyAlt rest)) m.childBudget)
               reset_state := m.reset_state.set idx true } ∧
      "" ∈ withEmptyAlt rest ∧ 1 < (withEmptyAlt rest).length) ∧
    (eosRe ∉ dedupF pats →
      m.setNextRegexFSM accepts mkR idx =
        some { m with
               regex_fsms :=
                 if m.regex_fsms.length ≤ idx then
                   m.regex_fsms ++ [mkR (unionPattern (dedupF pats)) m.childBudget]
                 else m.regex_fsms.set idx (mkR (unionPattern (dedupF pats)) m.childBudget)
               reset_state := m.reset_state.set idx true }) := by
  refine ⟨?_, ?_, ?_⟩
  · intro hmem hrest
    simp only [CFGFSM.setNextRegexFSM, hPats, hEnd]
    rw [if_pos hmem, hrest]
    simp [hDone]
  · intro rest hrestdef hmem hne hnes
    have hie : rest.isEmpty = false := by
      cases rest
      · exact absurd rfl hne
      · rfl
    have hmem2 : "" ∈ withEmptyAlt rest := by
      unfold withEmptyAlt
      by_cases hin : "" ∈ rest
      · rw [if_pos hin]; exact hin
      · rw [if_neg hin]; simp
    have hlen : 1 < (withEmptyAlt rest).length := by
      unfold withEmptyAlt
      by_cases hin : "" ∈ rest
      · rw [if_pos hin]
        rcases rest with _ | ⟨a, rest2⟩
        · exact absurd rfl hne
        · rcases rest2 with _ | ⟨b, rest3⟩
          · have ha : a = "" := (List.mem_singleton.mp hin).symm
            exact absurd (by rw [ha]) hnes
          · simp only [List.length_cons]
            omega
      · rw [if_neg hin]
        rcases rest with _ | ⟨a, rest2⟩
        · exact absurd rfl hne
        · simp only [List.length_append, List.length_cons]
          omega
    refine ⟨?_, hmem2, hlen⟩
    simp only [CFGFSM.setNextRegexFSM, CFGFSM.installRegex, hPats, hEnd]
    rw [← hrestdef]
    rw [if_pos hmem, hie]
    simp only [Bool.false_eq_true, if_false, if_neg]
    simp [hAE, hRS, hlen]
    split <;> rfl
  · intro hnot
    simp only [CFGFSM.setNextRegexFSM, CFGFSM.installRegex, hPats, hEnd]
    rw [if_neg hnot]
    simp [hRS]
    split <;> rfl

/-- Witness for `cfg_set_next_cases`: in the two-terminal grammar guide with
lane 0 created, the frontier `{A, B}` (regexps `"a"` and `"b"`, no
end-of-input) installs a child guide over the union pattern and sets the
pending-reset flag. -/
theorem cfg_set_next_cases_witness :
    cfgLane0.setNextRegexFSM ["A", "B"] mkRdummy 0 =
      some { cfgLane0 with
             regex_fsms :=
               if cfgLane0.regex_fsms.length ≤ 0 then
                 cfgLane0.regex_fsms ++
                   [mkRdummy (unionPattern (dedupF ["a", "b"])) cfgLane0.childBudget]
               else
                 cfgLane0.regex_fsms.set 0
                   (mkRdummy (unionPattern (dedupF ["a", "b"])) cfgLane0.childBudget)
             reset_state := cfgLane0.reset_state.set 0 true } :=
  (cfg_set_next_cases cfgLane0 ["A", "B"] mkRdummy 0 ("</s>") ["a", "b"]
    (by rfl) (by rfl) (by decide) (by decide) (by decide)).2.2 (by decide)
